import Mathlib

/-!
Verification of the career-assistant chatbot backend (`chatbot_api.py`).

The Python source is shallowly embedded: pure computations become Lean
functions, remote calls (OpenAI embeddings/completions, Supabase inserts and
queries) become explicit function parameters returning `Except String α`
(`.error e` models a raised exception with message `e`), and Python `None`
and JSON-dict return values are modelled by an explicit value type.
Text is modelled as `List Char`, matching Python's `str` as a sequence of
characters (`len`, slicing and `split` are character-based).
-/

set_option autoImplicit false

namespace Chatbot

/-! ### RAGRetriever.chunk_text -/

/-- A document chunk as built by `RAGRetriever.chunk_text`:
`{'content': section, 'metadata': {'source': source, 'chunk_id': i}}`. -/
structure DocumentChunk where
  content : List Char
  source : String
  chunk_id : Nat
deriving DecidableEq, Repr

/-- Python `text.split('\n\n')`: non-overlapping, left-to-right split on the
two-character separator; adjacent separators and ends produce empty parts. -/
def split_double_newline : List Char → List (List Char)
  | [] => [[]]
  | '\n' :: '\n' :: rest => [] :: split_double_newline rest
  | c :: rest =>
    match split_double_newline rest with
    | [] => [[c]]
    | s :: ss => (c :: s) :: ss

/-- Python `str.isspace` characters relevant to `str.strip()` (ASCII range). -/
def is_py_space (c : Char) : Bool :=
  c = ' ' || c = '\t' || c = '\n' || c = '\r' || c = '\x0b' || c = '\x0c'

/-- Python `s.strip()`: drop leading and trailing whitespace. -/
def py_strip (cs : List Char) : List Char :=
  ((cs.dropWhile is_py_space).reverse.dropWhile is_py_space).reverse

/-- `sections = [s.strip() for s in text.split('\n\n') if s.strip()]`:
the stripped, nonempty double-newline-separated sections of `text`. -/
def sectionsOf (text : List Char) : List (List Char) :=
  ((split_double_newline text).map py_strip).filter (fun s => s ≠ [])

/-- The `for i, section in enumerate(sections): if len(section) > 50: append`
loop of `chunk_text`, with `i` the running enumeration index. -/
def chunk_text_aux (source : String) : Nat → List (List Char) → List DocumentChunk
  | _, [] => []
  | i, s :: rest =>
    if s.length > 50 then
      { content := s, source := source, chunk_id := i } :: chunk_text_aux source (i + 1) rest
    else
      chunk_text_aux source (i + 1) rest

/-- `RAGRetriever.chunk_text(text, source)`: split on double newlines, strip,
drop empty sections, then keep each section longer than 50 characters as a
chunk tagged with the source label and its `enumerate` index. -/
def chunk_text (text : List Char) (source : String) : List DocumentChunk :=
  chunk_text_aux source 0 (sectionsOf text)

/-! ### Python return values and `json.dumps` -/

/-- A Python value as returned by the store operations: either `None`
(a bare `return` / fall-through) or a flat JSON object with string values,
which is the shape of every dict these handlers build. -/
inductive PyResult where
  | pyNone
  | dict (fields : List (String × String))
deriving DecidableEq, Repr

/-- JSON string escaping of the characters that can occur in these values. -/
def json_escape_chars : List Char → List Char
  | [] => []
  | c :: rest =>
    if c = '\\' then '\\' :: '\\' :: json_escape_chars rest
    else if c = '"' then '\\' :: '"' :: json_escape_chars rest
    else c :: json_escape_chars rest

/-- Serialize one JSON string literal. -/
def json_str (s : String) : String :=
  "\"" ++ String.mk (json_escape_chars s.data) ++ "\""

/-- Serialize the fields of a flat JSON object with `json.dumps`'s default
`', '` and `': '` separators. -/
def json_dumps_fields : List (String × String) → String
  | [] => ""
  | [(k, v)] => json_str k ++ ": " ++ json_str v
  | (k, v) :: rest => json_str k ++ ": " ++ json_str v ++ ", " ++ json_dumps_fields rest

/-- Python `json.dumps` on the values the tool handlers produce. -/
def json_dumps : PyResult → String
  | .pyNone => "null"
  | .dict fields => "\x7b" ++ json_dumps_fields fields ++ "\x7d"

/-! ### ConversationStore -/

/-- A row of the `leads` table, as built by `record_user_details`. -/
structure Lead where
  user_id : String
  email : String
  name : String
  notes : String
deriving DecidableEq, Repr

/-- A row of the `conversations` table, as built by `save_conversation`. -/
structure ConversationRow where
  user_id : String
  message : String
  response : String
  metadata : List (String × String)
deriving DecidableEq, Repr

/-- `ConversationStore.save_conversation`: attempts one insert into
`conversations`; both on success and on a caught exception the Python
function only prints and returns `None`. `ins` models the Supabase insert. -/
def save_conversation (ins : ConversationRow → Except String Unit)
    (user_id message response : String)
    (metadata : Option (List (String × String)) := none) : PyResult :=
  match ins { user_id := user_id, message := message, response := response,
              metadata := metadata.getD [] } with
  | .ok _ => .pyNone
  | .error _ => .pyNone

/-- `ConversationStore.record_user_details`: builds the lead row (defaults
`name="Not provided"`, `notes=""`), attempts one insert, and returns
`{"recorded": "ok", "email": email}` on success or `{"error": str(e)}` on a
caught exception. The second component records the row handed to the insert. -/
def record_user_details (ins : Lead → Except String Unit) (user_id email : String)
    (name : String := "Not provided") (notes : String := "") : PyResult × Lead :=
  match ins { user_id := user_id, email := email, name := name, notes := notes } with
  | .ok _ =>
    (.dict [("recorded", "ok"), ("email", email)],
     { user_id := user_id, email := email, name := name, notes := notes })
  | .error e =>
    (.dict [("error", e)],
     { user_id := user_id, email := email, name := name, notes := notes })

/-- `ConversationStore.record_unknown_question`: attempts one insert into
`unknown_questions` and returns `{"recorded": "ok"}` on success or
`{"error": str(e)}` on a caught exception. -/
def record_unknown_question (ins : String → Except String Unit)
    (question : String) : PyResult :=
  match ins question with
  | .ok _ => .dict [("recorded", "ok")]
  | .error e => .dict [("error", e)]

/-! ### AdityaChatbot._handle_tool_calls -/

/-- A model-requested tool invocation: correlation id, function name and the
parsed JSON argument object (`json.loads(tool_call.function.arguments)`). -/
structure ToolCall where
  id : String
  name : String
  arguments : List (String × String)
deriving DecidableEq, Repr

/-- One tool-result envelope:
`{"role": "tool", "content": json.dumps(result), "tool_call_id": tool_call.id}`. -/
structure ToolEnvelope where
  role : String
  content : String
  tool_call_id : String
deriving DecidableEq, Repr

/-- Whether every key of a Python `**kwargs` dict is among the accepted
parameter names (otherwise the call raises `TypeError`). -/
def kwargs_keys_ok (args : List (String × String)) (allowed : List String) : Bool :=
  args.all (fun p => allowed.contains p.1)

/-- `self.db.record_user_details(user_id, **arguments)`: keyword binding of
the parsed argument object onto `(user_id, email, name="Not provided",
notes="")`; an unexpected key or a missing `email` raises `TypeError`. -/
def call_record_user_details (ins : Lead → Except String Unit) (user_id : String)
    (args : List (String × String)) : Except String PyResult :=
  if kwargs_keys_ok args ["email", "name", "notes"] then
    match args.lookup "email" with
    | none => .error "TypeError: record_user_details missing required argument email"
    | some email =>
      .ok (record_user_details ins user_id email
            ((args.lookup "name").getD "Not provided")
            ((args.lookup "notes").getD "")).1
  else .error "TypeError: record_user_details got an unexpected keyword argument"

/-- `self.db.record_unknown_question(**arguments)`: keyword binding onto
`(question)`; an unexpected key or a missing `question` raises `TypeError`. -/
def call_record_unknown_question (ins : String → Except String Unit)
    (args : List (String × String)) : Except String PyResult :=
  if kwargs_keys_ok args ["question"] then
    match args.lookup "question" with
    | none => .error "TypeError: record_unknown_question missing required argument question"
    | some q => .ok (record_unknown_question ins q)
  else .error "TypeError: record_unknown_question got an unexpected keyword argument"

/-- The routing body of `_handle_tool_calls` for one tool call: dispatch on
the tool name, falling back to a local acknowledgment when Supabase is
disabled and to `{"error": "Unknown tool"}` for unrecognized names. -/
def dispatch_tool_call (supabase_enabled : Bool) (leadIns : Lead → Except String Unit)
    (qIns : String → Except String Unit) (user_id : String) (tc : ToolCall) :
    Except String PyResult :=
  if tc.name = "record_user_details" then
    if supabase_enabled then call_record_user_details leadIns user_id tc.arguments
    else .ok (.dict [("recorded", "ok"), ("note", "Logged locally (Supabase disabled)")])
  else if tc.name = "record_unknown_question" then
    if supabase_enabled then call_record_unknown_question qIns tc.arguments
    else .ok (.dict [("recorded", "ok"), ("note", "Logged locally (Supabase disabled)")])
  else .ok (.dict [("error", "Unknown tool")])

/-- `AdityaChatbot._handle_tool_calls`: process the requested calls in order,
appending one envelope per call; an exception raised by a handler propagates
out of the loop. -/
def handle_tool_calls (supabase_enabled : Bool) (leadIns : Lead → Except String Unit)
    (qIns : String → Except String Unit) (user_id : String) :
    List ToolCall → Except String (List ToolEnvelope)
  | [] => .ok []
  | tc :: rest =>
    match dispatch_tool_call supabase_enabled leadIns qIns user_id tc with
    | .error e => .error e
    | .ok result =>
      match handle_tool_calls supabase_enabled leadIns qIns user_id rest with
      | .error e => .error e
      | .ok envs =>
        .ok ({ role := "tool", content := json_dumps result, tool_call_id := tc.id } :: envs)

/-- A tool call whose argument object conforms to the schema the chatbot
declares in `_get_tools` (`required` fields present, `additionalProperties:
False`); such calls never raise `TypeError` during keyword binding. -/
def well_formed_call (tc : ToolCall) : Bool :=
  if tc.name = "record_user_details" then
    kwargs_keys_ok tc.arguments ["email", "name", "notes"]
      && (tc.arguments.lookup "email").isSome
  else if tc.name = "record_unknown_question" then
    kwargs_keys_ok tc.arguments ["question"]
      && (tc.arguments.lookup "question").isSome
  else true

/-! ### AdityaChatbot.chat: the multi-turn tool-calling loop -/

/-- One entry of the in-memory message sequence: a plain role/content dict,
the assistant message object carrying tool calls, or a tool-result envelope. -/
inductive ChatMsg where
  | plain (role : String) (content : String)
  | assistantToolCalls (calls : List ToolCall)
  | toolResult (env : ToolEnvelope)
deriving DecidableEq, Repr

/-- The observable part of one completion response: either
`finish_reason == "tool_calls"` with the requested calls, or any other
finish reason with the message content. -/
inductive Choice where
  | toolCalls (calls : List ToolCall)
  | stop (content : String)

/-- `e.isOk`-style test for the embedded exception monad. -/
def exceptOk {ε α : Type} : Except ε α → Bool
  | .ok _ => true
  | .error _ => false

/-- The `while not done` loop of `AdityaChatbot.chat`, step-indexed by `n`:
`none` means the loop is still running after `n` completion rounds;
`some (.ok content)` means it finished with a final answer; `some (.error e)`
means a tool handler raised and the exception aborted the loop.
`completion` models `self.openai.chat.completions.create` as a function of
the current message sequence. -/
def chat_loop (completion : List ChatMsg → Choice) (supabase_enabled : Bool)
    (leadIns : Lead → Except String Unit) (qIns : String → Except String Unit)
    (user_id : String) : List ChatMsg → Nat → Option (Except String String)
  | _, 0 => none
  | msgs, n + 1 =>
    match completion msgs with
    | .stop content => some (.ok content)
    | .toolCalls calls =>
      match handle_tool_calls supabase_enabled leadIns qIns user_id calls with
      | .error e => some (.error e)
      | .ok envs =>
        chat_loop completion supabase_enabled leadIns qIns user_id
          (msgs ++ ChatMsg.assistantToolCalls calls :: envs.map ChatMsg.toolResult) n

/-- The message sequence after one round of the loop: unchanged when the
model stops (or a handler raises, aborting the loop), extended with the
assistant tool-call message and the tool results otherwise. -/
def chat_step (completion : List ChatMsg → Choice) (supabase_enabled : Bool)
    (leadIns : Lead → Except String Unit) (qIns : String → Except String Unit)
    (user_id : String) (msgs : List ChatMsg) : List ChatMsg :=
  match completion msgs with
  | .stop _ => msgs
  | .toolCalls calls =>
    match handle_tool_calls supabase_enabled leadIns qIns user_id calls with
    | .error _ => msgs
    | .ok envs => msgs ++ ChatMsg.assistantToolCalls calls :: envs.map ChatMsg.toolResult

/-- The message sequence at the start of round `k` of the loop. -/
def chat_msgs_at (completion : List ChatMsg → Choice) (supabase_enabled : Bool)
    (leadIns : Lead → Except String Unit) (qIns : String → Except String Unit)
    (user_id : String) (msgs : List ChatMsg) : Nat → List ChatMsg
  | 0 => msgs
  | k + 1 =>
    chat_msgs_at completion supabase_enabled leadIns qIns user_id
      (chat_step completion supabase_enabled leadIns qIns user_id msgs) k

/-- Whether, from message sequence `msgs`, the loop performs another round:
the model signals tool-call intent and the dispatcher does not raise. -/
def loop_continues (completion : List ChatMsg → Choice) (supabase_enabled : Bool)
    (leadIns : Lead → Except String Unit) (qIns : String → Except String Unit)
    (user_id : String) (msgs : List ChatMsg) : Bool :=
  match completion msgs with
  | .stop _ => false
  | .toolCalls calls =>
    exceptOk (handle_tool_calls supabase_enabled leadIns qIns user_id calls)

/-! ### RAGRetriever.is_initialized and startup wiring -/

/-- `RAGRetriever.is_initialized`: runs
`supabase.table('documents').select('id').limit(1).execute()` (modelled by
its outcome `queryDocs`: the returned rows, or a raised exception) and
returns `len(result.data) > 0`, with any exception caught as `False`. -/
def is_initialized (queryDocs : Except String (List Nat)) : Bool :=
  match queryDocs with
  | .ok data => data.length > 0
  | .error _ => false

/-- The startup wiring in `AdityaChatbot.__init__`: `embed_documents` is
called iff Supabase is enabled and `is_initialized` returned `False`. -/
def startup_embed_documents_invoked (supabase_enabled : Bool)
    (queryDocs : Except String (List Nat)) : Bool :=
  supabase_enabled && !(is_initialized queryDocs)

/-! ### RAGRetriever.retrieve_context -/

/-- One row returned by the store's similarity search: raw chunk content and
its similarity score. Scores are abstracted to integers on a tenths scale
(the store computes floating-point cosine similarity; only the comparison
with the threshold matters here). -/
structure MatchedDoc where
  content : String
  similarity : Int
deriving DecidableEq, Repr

/-- The `match_threshold: 0.7` argument of the RPC call, on the tenths scale. -/
def match_threshold_scaled : Int := 7

/-- Modelled from the spec: the hosted store's server-side `match_documents`
procedure is not part of this repository; per the spec it accepts a query
embedding, a similarity threshold and a result-count limit and returns the
ranked matches above the threshold, at most `match_count` of them. `ranked`
is the store's candidate list for the query, already in its ranked order. -/
def match_documents (ranked : List MatchedDoc) (match_threshold : Int)
    (match_count : Nat) : List MatchedDoc :=
  (ranked.filter (fun d => match_threshold ≤ d.similarity)).take match_count

/-- The `supabase.rpc('match_documents', ...)` call: fails when the store is
unavailable, otherwise runs the server-side procedure on the store's ranked
candidates for the query embedding. -/
def rpc_match_documents (store : List Int → Except String (List MatchedDoc))
    (query_embedding : List Int) (match_threshold : Int) (match_count : Nat) :
    Except String (List MatchedDoc) :=
  match store query_embedding with
  | .error e => .error e
  | .ok ranked => .ok (match_documents ranked match_threshold match_count)

/-- `RAGRetriever.retrieve_context(query, top_k=3)`: embed the query, call the
`match_documents` RPC with threshold 0.7 and `match_count = top_k`, and return
`[doc['content'] for doc in response.data]`; any exception from either remote
call is caught and yields `[]`. `generate_embedding` models the OpenAI
embedding call, `store` the Supabase store (its ranked candidates per query
embedding, or unavailability). -/
def retrieve_context (generate_embedding : String → Except String (List Int))
    (store : List Int → Except String (List MatchedDoc))
    (query : String) (top_k : Nat := 3) : List String :=
  match generate_embedding query with
  | .error _ => []
  | .ok query_embedding =>
    match rpc_match_documents store query_embedding match_threshold_scaled top_k with
    | .error _ => []
    | .ok data => data.map (fun d => d.content)

/-! ### The POST /api/chat route -/

/-- The three JSON body shapes the route produces. -/
inductive RouteBody where
  | errorOnly (error : String)
  | successTrue (response : String)
  | successFalse (error : String)
deriving DecidableEq, Repr

/-- The `/api/chat` handler: `message = data.get('message', '')`; an absent
field (`none`) defaults to `""`; `if not message` short-circuits to
`400 {"error": "Message is required"}` before the orchestrator runs;
otherwise `chatbot.chat` (modelled by `orch`, which may raise) produces
`200 {"response": ..., "success": true}`, and a caught exception produces
`500 {"error": str(e), "success": false}`. The second component records
whether the orchestrator was invoked. -/
def chat_route_run (message? : Option String) (orch : String → Except String String) :
    (Nat × RouteBody) × Bool :=
  let message := message?.getD ""
  if message = "" then ((400, .errorOnly "Message is required"), false)
  else
    match orch message with
    | .ok r => ((200, .successTrue r), true)
    | .error e => ((500, .successFalse e), true)

/-- The HTTP status and body of the `/api/chat` handler. -/
def chat_route (message? : Option String) (orch : String → Except String String) :
    Nat × RouteBody :=
  (chat_route_run message? orch).1

/-! ### Concrete inputs used in counterexamples and witnesses -/

/-- A document whose first section (`"hi"`) is short and discarded and whose
second section (51 `'a'`s) is retained: `"hi\n\n" ++ "a" * 51`. -/
def shortThenLongText : List Char := 'h' :: 'i' :: '\n' :: '\n' :: List.replicate 51 'a'

/-- A document that is a single section of exactly 50 characters. -/
def exactly50Text : List Char := List.replicate 50 'a'

/-- A document with two sections of 51 characters each. -/
def twoLongText : List Char :=
  List.replicate 51 'a' ++ '\n' :: '\n' :: List.replicate 51 'b'

/-- A leads insert that always succeeds. -/
def okLeadIns : Lead → Except String Unit := fun _ => .ok ()

/-- An unknown-questions insert that always succeeds. -/
def okQIns : String → Except String Unit := fun _ => .ok ()

/-- A concrete batch: one schema-conforming lead call, one unknown tool. -/
def wCalls : List ToolCall :=
  [{ id := "call_1", name := "record_user_details", arguments := [("email", "a@b.com")] },
   { id := "call_2", name := "get_weather", arguments := [] }]

/-- A batch whose single `record_user_details` request lacks the required
`email` argument, so its keyword binding raises `TypeError`. -/
def badEmailCalls : List ToolCall :=
  [{ id := "call_1", name := "record_user_details", arguments := [] }]

/-- An embedding call that succeeds with a fixed vector. -/
def wEmbed : String → Except String (List Int) := fun _ => .ok [1, 2]

/-- An embedding call that raises. -/
def wEmbedFail : String → Except String (List Int) := fun _ => .error "embedding failed"

/-- The store's ranked candidate list used in the retrieval witness. -/
def wRanked : List MatchedDoc :=
  [{ content := "docA", similarity := 9 },
   { content := "docB", similarity := 8 },
   { content := "docC", similarity := 3 }]

/-- A store that answers every query with `wRanked`. -/
def wStore : List Int → Except String (List MatchedDoc) := fun _ => .ok wRanked

/-- A store that is unavailable. -/
def wStoreDown : List Int → Except String (List MatchedDoc) := fun _ => .error "store down"

/-- An orchestrator that answers `"Hello!"` without raising. -/
def wOrch : String → Except String String := fun _ => .ok "Hello!"

/-- A mocked model that signals tool-call intent on every completion response. -/
def alwaysToolCompletion : List ChatMsg → Choice := fun _ => Choice.toolCalls []

/-! ## Helper lemmas about the chunker -/

theorem chunk_text_aux_map_content (source : String) (n : Nat) (l : List (List Char)) :
    (chunk_text_aux source n l).map (fun c => c.content) =
      l.filter (fun s => s.length > 50) := by
  induction l generalizing n with
  | nil => rfl
  | cons s rest ih =>
    by_cases h : s.length > 50
    · simp [chunk_text_aux, h, List.filter_cons, ih (n + 1)]
    · simp [chunk_text_aux, h, List.filter_cons, ih (n + 1)]

theorem chunk_text_aux_mem (source : String) (n : Nat) (l : List (List Char)) :
    ∀ c ∈ chunk_text_aux source n l,
      n ≤ c.chunk_id ∧ l[c.chunk_id - n]? = some c.content ∧ c.content.length > 50 := by
  induction l generalizing n with
  | nil => intro c hc; simp [chunk_text_aux] at hc
  | cons s rest ih =>
    intro c hc
    by_cases h : s.length > 50
    · rw [chunk_text_aux, if_pos h] at hc
      rcases List.mem_cons.mp hc with rfl | hc
      · exact ⟨Nat.le_refl n, by simp, h⟩
      · obtain ⟨h1, h2, h3⟩ := ih (n + 1) c hc
        refine ⟨by omega, ?_, h3⟩
        have hidx : c.chunk_id - n = (c.chunk_id - (n + 1)) + 1 := by omega
        rw [hidx]
        simpa using h2
    · rw [chunk_text_aux, if_neg h] at hc
      obtain ⟨h1, h2, h3⟩ := ih (n + 1) c hc
      refine ⟨by omega, ?_, h3⟩
      have hidx : c.chunk_id - n = (c.chunk_id - (n + 1)) + 1 := by omega
      rw [hidx]
      simpa using h2

theorem chunk_text_aux_pairwise (source : String) (n : Nat) (l : List (List Char)) :
    ((chunk_text_aux source n l).map (fun c => c.chunk_id)).Pairwise (· < ·) := by
  induction l generalizing n with
  | nil => simp [chunk_text_aux]
  | cons s rest ih =>
    by_cases h : s.length > 50
    · rw [chunk_text_aux, if_pos h, List.map_cons]
      refine List.Pairwise.cons ?_ (ih (n + 1))
      intro m hm
      obtain ⟨c, hc, rfl⟩ := List.mem_map.mp hm
      have := (chunk_text_aux_mem source (n + 1) rest c hc).1
      show n < c.chunk_id
      omega
    · rw [chunk_text_aux, if_neg h]
      exact ih (n + 1)

theorem chunk_text_aux_all_long (source : String) (n : Nat) (l : List (List Char))
    (h : ∀ s ∈ l, s.length > 50) :
    (chunk_text_aux source n l).map (fun c => c.chunk_id) = List.range' n l.length := by
  induction l generalizing n with
  | nil => rfl
  | cons s rest ih =>
    have hs : s.length > 50 := h s (List.mem_cons_self s rest)
    rw [chunk_text_aux, if_pos hs, List.map_cons, List.length_cons, List.range'_succ]
    exact congrArg _ (ih (n + 1) fun t ht => h t (List.mem_cons_of_mem s ht))

/-! ## Claims about the chunker (C1, C3) -/

/-- C1 counterexample: for the document `"hi\n\n" ++ "a" * 51`, exactly one
chunk is returned but its `chunk_id` is 1, not 0: the discarded short leading
section shifts the index, so the ids are not a dense zero-based sequence. -/
theorem chunk_text_ids_not_dense_cex :
    (chunk_text shortThenLongText "resume").map (fun c => c.chunk_id) ≠
      List.range (chunk_text shortThenLongText "resume").length := by
  decide

/-- C1 (amended): `chunk_id` is the chunk's `enumerate` index among all
nonempty stripped sections of the source, including the discarded short ones:
the ids are strictly increasing and each chunk's content sits at position
`chunk_id` of the section list, but they form the dense sequence
`0, 1, ..., n-1` only in the case that no section was discarded - in
particular whenever every section is longer than 50 characters. -/
theorem chunk_text_chunk_id_spec (text : List Char) (source : String) :
    ((chunk_text text source).map (fun c => c.chunk_id)).Pairwise (· < ·) ∧
    (∀ c ∈ chunk_text text source, (sectionsOf text)[c.chunk_id]? = some c.content) ∧
    ((∀ s ∈ sectionsOf text, s.length > 50) →
      (chunk_text text source).map (fun c => c.chunk_id) =
        List.range (sectionsOf text).length) := by
  refine ⟨chunk_text_aux_pairwise source 0 (sectionsOf text), ?_, ?_⟩
  · intro c hc
    have h := (chunk_text_aux_mem source 0 (sectionsOf text) c hc).2.1
    simpa using h
  · intro h
    rw [chunk_text, chunk_text_aux_all_long source 0 (sectionsOf text) h,
      List.range_eq_range']

/-- Witness for the amended C1 at a concrete two-section document in which no
section is discarded: the ids are the dense sequence `[0, 1]`. -/
theorem chunk_text_chunk_id_spec_witness :
    (∀ s ∈ sectionsOf twoLongText, s.length > 50) ∧
    (chunk_text twoLongText "resume").map (fun c => c.chunk_id) =
      List.range (sectionsOf twoLongText).length :=
  ⟨by decide, (chunk_text_chunk_id_spec twoLongText "resume").2.2 (by decide)⟩

/-- C3 counterexample: a document that is a single stripped section of exactly
50 characters is discarded (the code keeps only sections strictly longer than
50), although the claim says sections of length 50 or more are retained. -/
theorem chunk_text_fifty_discarded_cex :
    exactly50Text.length = 50 ∧
    sectionsOf exactly50Text = [exactly50Text] ∧
    chunk_text exactly50Text "resume" = [] := by
  decide

/-- C3 (amended): `chunk_text` retains exactly the stripped sections strictly
longer than 50 characters, in order; every section of length 50 or fewer is
discarded (the minimum-size comparison is strict). -/
theorem chunk_text_retained_contents (text : List Char) (source : String) :
    (chunk_text text source).map (fun c => c.content) =
      (sectionsOf text).filter (fun s => s.length > 50) :=
  chunk_text_aux_map_content source 0 (sectionsOf text)

/-! ## Helper lemmas about the tool-calling loop -/

theorem chat_loop_alwaysTool_none (n : Nat) : ∀ msgs : List ChatMsg,
    chat_loop alwaysToolCompletion false okLeadIns okQIns "anonymous" msgs n = none := by
  induction n with
  | zero => intro msgs; rfl
  | succ n ih =>
    intro msgs
    rw [chat_loop]
    exact ih _

theorem exists_lt_succ_iff (n : Nat) (P : Nat → Prop) :
    (∃ k, k < n + 1 ∧ P k) ↔ P 0 ∨ ∃ k, k < n ∧ P (k + 1) := by
  constructor
  · rintro ⟨k, hk, hp⟩
    cases k with
    | zero => exact Or.inl hp
    | succ k => exact Or.inr ⟨k, by omega, hp⟩
  · rintro (hp | ⟨k, hk, hp⟩)
    · exact ⟨0, by omega, hp⟩
    · exact ⟨k + 1, by omega, hp⟩

/-! ## Claims about the tool-calling loop (C2) -/

/-- C2 counterexample: under the mocked model that signals tool-call intent on
every completion response, the `while not done` loop is still running after
every number of rounds: no bound on the number of rounds exists. -/
theorem chat_loop_unbounded_cex :
    ¬ ∃ B : Nat,
        (chat_loop alwaysToolCompletion false okLeadIns okQIns "anonymous"
          [ChatMsg.plain "user" "Hi"] B).isSome = true := by
  rintro ⟨B, h⟩
  rw [chat_loop_alwaysTool_none B _] at h
  simp at h

/-- C2 (amended): the orchestrator loop has no built-in iteration bound: it has
terminated within `n` rounds (with a final answer, or by a tool handler
raising) precisely when, within the first `n` rounds of the transcript it
generates, the model returns a response that does not signal tool-call intent
or the dispatcher raises; a model that always requests tools keeps it looping
forever. -/
theorem chat_loop_terminates_iff (completion : List ChatMsg → Choice)
    (supabase_enabled : Bool) (leadIns : Lead → Except String Unit)
    (qIns : String → Except String Unit) (user_id : String) (msgs : List ChatMsg)
    (n : Nat) :
    (chat_loop completion supabase_enabled leadIns qIns user_id msgs n).isSome = true ↔
    ∃ k, k < n ∧
      loop_continues completion supabase_enabled leadIns qIns user_id
        (chat_msgs_at completion supabase_enabled leadIns qIns user_id msgs k) = false := by
  induction n generalizing msgs with
  | zero => simp [chat_loop]
  | succ n ih =>
    rw [exists_lt_succ_iff]
    cases hc : completion msgs with
    | stop content =>
      have hcont : loop_continues completion supabase_enabled leadIns qIns user_id msgs
          = false := by
        simp [loop_continues, hc]
      simp [chat_loop, hc, chat_msgs_at, hcont]
    | toolCalls calls =>
      cases hh : handle_tool_calls supabase_enabled leadIns qIns user_id calls with
      | error e =>
        have hcont : loop_continues completion supabase_enabled leadIns qIns user_id msgs
            = false := by
          simp [loop_continues, hc, hh, exceptOk]
        simp [chat_loop, hc, hh, chat_msgs_at, hcont]
      | ok envs =>
        have hcont : loop_continues completion supabase_enabled leadIns qIns user_id msgs
            = true := by
          simp [loop_continues, hc, hh, exceptOk]
        have hstep : chat_step completion supabase_enabled leadIns qIns user_id msgs =
            msgs ++ ChatMsg.assistantToolCalls calls :: envs.map ChatMsg.toolResult := by
          simp [chat_step, hc, hh]
        simp only [chat_loop, hc, hh]
        rw [ih]
        constructor
        · rintro ⟨k, hk, hp⟩
          refine Or.inr ⟨k, hk, ?_⟩
          rw [chat_msgs_at, hstep]
          exact hp
        · rintro (hp | ⟨k, hk, hp⟩)
          · simp only [chat_msgs_at] at hp
            rw [hcont] at hp; cases hp
          · refine ⟨k, hk, ?_⟩
            rw [chat_msgs_at, hstep] at hp
            exact hp

/-! ## Claims about the conversation store (C4, C9) -/

/-- C4 counterexample: when its insert fails, `save_conversation` only logs
and returns `None`: its result is not an error-shaped `{error: message}`
object (nor any object at all), contrary to the claim that all three write
operations return one. -/
theorem save_conversation_returns_none_cex :
    save_conversation (fun _ => .error "insert failed") "u1" "hello" "hi there"
      = PyResult.pyNone ∧
    ∀ fields, PyResult.pyNone ≠ PyResult.dict fields :=
  ⟨rfl, fun _ h => PyResult.noConfusion h⟩

/-- C4 (amended): when their insert fails, `record_user_details` and
`record_unknown_question` log and return `{error: message}` without raising;
`save_conversation` also catches the failure and does not raise, but only
logs and returns `None` rather than an error-shaped object. -/
theorem store_write_failure_results (leadIns : Lead → Except String Unit)
    (qIns : String → Except String Unit) (convIns : ConversationRow → Except String Unit)
    (e₁ e₂ e₃ user_id email name notes question message response : String)
    (metadata : Option (List (String × String)))
    (h1 : leadIns { user_id := user_id, email := email, name := name, notes := notes }
      = .error e₁)
    (h2 : qIns question = .error e₂)
    (h3 : convIns { user_id := user_id, message := message, response := response,
                    metadata := metadata.getD [] } = .error e₃) :
    (record_user_details leadIns user_id email name notes).1 = .dict [("error", e₁)] ∧
    record_unknown_question qIns question = .dict [("error", e₂)] ∧
    save_conversation convIns user_id message response metadata = .pyNone := by
  refine ⟨?_, ?_, ?_⟩ <;>
    simp [record_user_details, record_unknown_question, save_conversation, h1, h2, h3]

/-- Witness for the amended C4 at concrete failing inserts. -/
theorem store_write_failure_results_witness :
    (record_user_details (fun _ => .error "db down") "u1" "a@b.com" "Ada" "note").1
      = .dict [("error", "db down")] ∧
    record_unknown_question (fun _ => .error "db down") "what is X"
      = .dict [("error", "db down")] ∧
    save_conversation (fun _ => .error "db down") "u1" "m" "r" none = .pyNone :=
  store_write_failure_results (fun _ => .error "db down") (fun _ => .error "db down")
    (fun _ => .error "db down") "db down" "db down" "db down"
    "u1" "a@b.com" "Ada" "note" "what is X" "m" "r" none rfl rfl rfl

/-- C9: called with only a user id and an email (the Python signature's only
required arguments), `record_user_details` builds the lead row with
`name = "Not provided"` and `notes = ""`, whatever the insert outcome. -/
theorem record_user_details_defaults (ins : Lead → Except String Unit)
    (user_id email : String) :
    (record_user_details ins user_id email).2 =
      { user_id := user_id, email := email, name := "Not provided", notes := "" } := by
  unfold record_user_details
  cases ins { user_id := user_id, email := email, name := "Not provided", notes := "" } <;>
    rfl

/-! ## Helper lemma for the dispatcher -/

theorem well_formed_dispatch_ok (supabase_enabled : Bool)
    (leadIns : Lead → Except String Unit) (qIns : String → Except String Unit)
    (user_id : String) (tc : ToolCall) (h : well_formed_call tc = true) :
    ∃ r, dispatch_tool_call supabase_enabled leadIns qIns user_id tc = .ok r := by
  unfold well_formed_call at h
  unfold dispatch_tool_call
  by_cases h1 : tc.name = "record_user_details"
  · rw [if_pos h1] at h ⊢
    cases supabase_enabled with
    | false => exact ⟨_, rfl⟩
    | true =>
      rw [Bool.and_eq_true] at h
      unfold call_record_user_details
      rw [if_pos h.1]
      cases hlk : tc.arguments.lookup "email" with
      | none => rw [hlk] at h; simp at h
      | some email => exact ⟨_, rfl⟩
  · rw [if_neg h1] at h ⊢
    by_cases h2 : tc.name = "record_unknown_question"
    · rw [if_pos h2] at h ⊢
      cases supabase_enabled with
      | false => exact ⟨_, rfl⟩
      | true =>
        rw [Bool.and_eq_true] at h
        unfold call_record_unknown_question
        rw [if_pos h.1]
        cases hlk : tc.arguments.lookup "question" with
        | none => rw [hlk] at h; simp at h
        | some q => exact ⟨_, rfl⟩
    · rw [if_neg h2]
      exact ⟨_, rfl⟩

/-! ## Claim about the tool dispatcher (C5) -/

/-- C5 counterexample: the dispatcher does not return one envelope per request
for every batch: with Supabase enabled, a `record_user_details` request whose
argument object lacks the required `email` raises `TypeError` at the
`self.db.record_user_details(user_id, **arguments)` keyword binding, and
`_handle_tool_calls` has no handler for it, so the batch of one request aborts
with no result envelopes at all. -/
theorem handle_tool_calls_missing_email_cex :
    handle_tool_calls true okLeadIns okQIns "u1" badEmailCalls =
      .error "TypeError: record_user_details missing required argument email" ∧
    ∀ envs, handle_tool_calls true okLeadIns okQIns "u1" badEmailCalls ≠ .ok envs := by
  have h1 : handle_tool_calls true okLeadIns okQIns "u1" badEmailCalls =
      .error "TypeError: record_user_details missing required argument email" := rfl
  exact ⟨h1, fun envs h => Except.noConfusion (h1.symm.trans h)⟩

/-- C5 (amended): on a batch of schema-conforming tool-call requests (each
known-tool request's argument object binds under the schema declared in
`_get_tools`: `email` respectively `question` present, no unexpected keys) the
dispatcher returns exactly one envelope per request, in request order, each
with role `"tool"`, the `tool_call_id` of its request, and as content the JSON
serialization of its handler's result; a request with an unrecognized tool
name gets the serialized `{error: "Unknown tool"}` and does not fail the
batch. A known-tool request that violates the schema instead raises during
keyword binding and aborts the whole batch. -/
theorem handle_tool_calls_spec (supabase_enabled : Bool)
    (leadIns : Lead → Except String Unit) (qIns : String → Except String Unit)
    (user_id : String) (calls : List ToolCall)
    (h : ∀ tc ∈ calls, well_formed_call tc = true) :
    ∃ envs, handle_tool_calls supabase_enabled leadIns qIns user_id calls = .ok envs ∧
      envs.length = calls.length ∧
      ∀ p ∈ calls.zip envs,
        p.2.role = "tool" ∧ p.2.tool_call_id = p.1.id ∧
        (∃ r, dispatch_tool_call supabase_enabled leadIns qIns user_id p.1 = .ok r ∧
          p.2.content = json_dumps r) ∧
        (p.1.name ≠ "record_user_details" → p.1.name ≠ "record_unknown_question" →
          p.2.content = json_dumps (.dict [("error", "Unknown tool")])) := by
  induction calls with
  | nil => exact ⟨[], rfl, rfl, by simp⟩
  | cons tc rest ih =>
    obtain ⟨r, hr⟩ :=
      well_formed_dispatch_ok supabase_enabled leadIns qIns user_id tc
        (h tc (List.mem_cons_self tc rest))
    obtain ⟨envs, he, hlen, hall⟩ := ih (fun t ht => h t (List.mem_cons_of_mem tc ht))
    refine ⟨{ role := "tool", content := json_dumps r, tool_call_id := tc.id } :: envs,
      ?_, by simpa using hlen, ?_⟩
    · rw [handle_tool_calls, hr, he]
    · intro p hp
      rw [List.zip_cons_cons] at hp
      rcases List.mem_cons.mp hp with rfl | hp
      · refine ⟨rfl, rfl, ⟨r, hr, rfl⟩, ?_⟩
        intro hn1 hn2
        unfold dispatch_tool_call at hr
        rw [if_neg hn1, if_neg hn2] at hr
        cases hr
        rfl
      · exact hall p hp

/-- Witness for C5: a concrete batch of one conforming lead-recording call and
one unknown tool, dispatched with Supabase enabled. -/
theorem handle_tool_calls_spec_witness :
    (∀ tc ∈ wCalls, well_formed_call tc = true) ∧
    (∃ envs, handle_tool_calls true okLeadIns okQIns "u7" wCalls = .ok envs ∧
      envs.length = wCalls.length ∧
      ∀ p ∈ wCalls.zip envs,
        p.2.role = "tool" ∧ p.2.tool_call_id = p.1.id ∧
        (∃ r, dispatch_tool_call true okLeadIns okQIns "u7" p.1 = .ok r ∧
          p.2.content = json_dumps r) ∧
        (p.1.name ≠ "record_user_details" → p.1.name ≠ "record_unknown_question" →
          p.2.content = json_dumps (.dict [("error", "Unknown tool")]))) :=
  ⟨by decide, handle_tool_calls_spec true okLeadIns okQIns "u7" wCalls (by decide)⟩

/-! ## Claim about embedding initialization (C6) -/

/-- C6: `is_initialized` is `true` exactly when the `documents` table holds at
least one record (the limit-1 select returns a nonempty data list for a
nonempty table and an empty one for an empty table), is `false` - rather than
raising - when the query raises, and the startup wiring invokes
`embed_documents` only when `is_initialized` is `false`; in particular a
nonempty records table is never re-populated. -/
theorem is_initialized_idempotence (x : Nat) (tbl : List Nat) (e : String)
    (enabled : Bool) (q : Except String (List Nat)) :
    is_initialized (.ok ((x :: tbl).take 1)) = true ∧
    is_initialized (.ok (([] : List Nat).take 1)) = false ∧
    is_initialized (.error e) = false ∧
    startup_embed_documents_invoked enabled q = (enabled && !(is_initialized q)) ∧
    startup_embed_documents_invoked enabled (.ok ((x :: tbl).take 1)) = false := by
  refine ⟨rfl, rfl, rfl, rfl, ?_⟩
  simp [startup_embed_documents_invoked, is_initialized]

/-! ## Claim about context retrieval (C7) -/

/-- C7: `retrieve_context` returns at most `top_k` content strings - the raw
contents of the store's matches, in the store's ranked order - and returns the
empty list, rather than raising, when the embedding call or the store query
fails. -/
theorem retrieve_context_spec (generate_embedding : String → Except String (List Int))
    (store : List Int → Except String (List MatchedDoc)) (query : String)
    (top_k : Nat) :
    (retrieve_context generate_embedding store query top_k).length ≤ top_k ∧
    (∀ e, generate_embedding query = .error e →
      retrieve_context generate_embedding store query top_k = []) ∧
    (∀ emb e, generate_embedding query = .ok emb → store emb = .error e →
      retrieve_context generate_embedding store query top_k = []) ∧
    (∀ emb ranked, generate_embedding query = .ok emb → store emb = .ok ranked →
      retrieve_context generate_embedding store query top_k =
        (match_documents ranked match_threshold_scaled top_k).map
          (fun d => d.content)) := by
  refine ⟨?_, ?_, ?_, ?_⟩
  · cases hg : generate_embedding query with
    | error e => simp [retrieve_context, hg]
    | ok emb =>
      cases hs : store emb with
      | error e => simp [retrieve_context, rpc_match_documents, hg, hs]
      | ok ranked =>
        simp only [retrieve_context, rpc_match_documents, hg, hs, List.length_map,
          match_documents, List.length_take]
        exact Nat.min_le_left _ _
  · intro e hg
    simp [retrieve_context, hg]
  · intro emb e hg hs
    simp [retrieve_context, rpc_match_documents, hg, hs]
  · intro emb ranked hg hs
    simp [retrieve_context, rpc_match_documents, hg, hs]

/-- Witness for C7: a failing embedding call, an unavailable store, and a
successful retrieval truncated to `top_k = 2` of the three above-threshold
candidates. -/
theorem retrieve_context_spec_witness :
    retrieve_context wEmbedFail wStore "q" 3 = [] ∧
    retrieve_context wEmbed wStoreDown "q" 3 = [] ∧
    retrieve_context wEmbed wStore "q" 2 = ["docA", "docB"] := by
  refine ⟨(retrieve_context_spec wEmbedFail wStore "q" 3).2.1 "embedding failed" rfl,
    (retrieve_context_spec wEmbed wStoreDown "q" 3).2.2.1 [1, 2] "store down" rfl rfl,
    ?_⟩
  rw [(retrieve_context_spec wEmbed wStore "q" 2).2.2.2 [1, 2] wRanked rfl rfl]
  decide

/-! ## Claims about the POST /api/chat route (C8, C10) -/

/-- C8: a body with no `message` field yields `400 {error: "Message is
required"}`; with a nonempty message, an orchestrator exception yields
`500 {error: str(e), success: false}` and a normal answer yields
`200 {response, success: true}`. -/
theorem chat_route_spec (m : String) (orch : String → Except String String)
    (hm : m ≠ "") :
    chat_route none orch = (400, .errorOnly "Message is required") ∧
    (∀ r, orch m = .ok r → chat_route (some m) orch = (200, .successTrue r)) ∧
    (∀ e, orch m = .error e → chat_route (some m) orch = (500, .successFalse e)) := by
  refine ⟨rfl, ?_, ?_⟩ <;> intro v hv <;>
    simp [chat_route, chat_route_run, hm, hv]

/-- Witness for C8 at the concrete message `"Hi"` and an orchestrator that
answers `"Hello!"`. -/
theorem chat_route_spec_witness :
    chat_route none wOrch = (400, .errorOnly "Message is required") ∧
    chat_route (some "Hi") wOrch = (200, .successTrue "Hello!") :=
  ⟨(chat_route_spec "Hi" wOrch (by decide)).1,
   (chat_route_spec "Hi" wOrch (by decide)).2.1 "Hello!" rfl⟩

/-- C10: a `message` field that is present but equal to the empty string takes
the same path as a missing one: the route answers `400 {error: "Message is
required"}` and the orchestrator is never invoked. -/
theorem chat_route_empty_message (orch : String → Except String String) :
    chat_route_run (some "") orch = ((400, .errorOnly "Message is required"), false) ∧
    chat_route_run (some "") orch = chat_route_run none orch :=
  ⟨rfl, rfl⟩

end Chatbot
